import Mathlib

/-!
# Verification of the hipchat integration's credential and session lifecycle

Shallow embedding of the `hipchat` package: the SQL-backed credential store
(`sqlstore.go` against `postgres_schema.sql`), the lifecycle controller's
token cache and handlers (`store.go`, `callbacks.go`), and the signed-request
(JWT) verification path (`ParseSignedParams`, `parse`, `NewSignedParams`,
`extractType`).

Modelling conventions:
- Go `uint64`/`uint32` values are `Nat` (conversions apply `% 2^32` where the
  source converts to `uint32`).
- A Go `(T, error)` return is `Except String T`; paths that can additionally
  panic at runtime return `GoResult T` with an explicit `panic` outcome.
- Go maps are association lists; map indexing of a missing key yields the
  nil interface value (`GoVal.null` for claim maps, `Option` for token maps).
- The database behind `SqlStore` is the list of rows of the `installation`
  table plus an injected connectivity error (`connErr`), since `database/sql`
  surfaces driver failures through each call.
- The jwt-go dependency is modelled by `jwtParse`: compact-form decoding is an
  abstract parameter (`decodeJwt`), and whether a decoded token's signature
  verifies under a candidate secret is the token's own `sigOK` predicate.
-/

set_option autoImplicit false

namespace Hipchat

/-- `InstallRecord` from `store.go`: the structure sent to `/installed`. -/
structure InstallRecord where
  capabilitiesURL : String
  oAuthID : String
  oAuthSecret : String
  groupID : Nat
  roomID : Nat
  deriving Repr, DecidableEq

/-- The state behind a `SqlStore`: the rows of the `installation` table
(`postgres_schema.sql`) plus an injected connectivity failure that makes
every `database/sql` call return that error. -/
structure SqlDB where
  rows : List InstallRecord
  connErr : Option String := none
  deriving Repr, DecidableEq

/-- Largest value of the Postgres `integer` column type used for
`groupId`/`roomId` in `postgres_schema.sql`. -/
def pgIntMax : Nat := 2 ^ 31 - 1

/-- `INSERT` conflict with the `oauthId varchar(255) PRIMARY KEY` constraint. -/
def pkViolation (rows : List InstallRecord) (r : InstallRecord) : Bool :=
  rows.any (fun x => x.oAuthID == r.oAuthID)

/-- `INSERT` conflict with the `installation_uniq` unique index on
`(groupId, roomId)`. -/
def uniqViolation (rows : List InstallRecord) (r : InstallRecord) : Bool :=
  rows.any (fun x => x.groupID == r.groupID && x.roomID == r.roomID)

/-- A value too large for the Postgres `integer` columns. -/
def rangeViolation (r : InstallRecord) : Bool :=
  decide (pgIntMax < r.groupID) || decide (pgIntMax < r.roomID)

def pkViolationMsg : String :=
  "duplicate key value violates unique constraint installation_pkey"

def uniqViolationMsg : String :=
  "duplicate key value violates unique constraint installation_uniq"

def outOfRangeMsg : String := "integer out of range"

/-- `SqlStore.SaveCredentials` (`sqlstore.go`): a plain
`INSERT INTO installation (capabilitiesUrl, oauthId, oauthSecret, groupId,
roomId) VALUES (...)`, whose error is returned as-is. The insert fails on a
primary-key conflict, a `(groupId, roomId)` unique-index conflict, or an
out-of-range integer. -/
def saveCredentials (db : SqlDB) (r : InstallRecord) : Except String SqlDB :=
  match db.connErr with
  | some e => .error e
  | none =>
    if pkViolation db.rows r then .error pkViolationMsg
    else if uniqViolation db.rows r then .error uniqViolationMsg
    else if rangeViolation r then .error outOfRangeMsg
    else .ok { db with rows := db.rows ++ [r] }

/-- `SqlStore.DeleteCredentials` (`sqlstore.go`):
`DELETE FROM installation WHERE oauthId = $1`; deleting zero rows is not an
error. -/
def deleteCredentials (db : SqlDB) (oAuthID : String) : Except String SqlDB :=
  match db.connErr with
  | some e => .error e
  | none => .ok { db with rows := db.rows.filter (fun x => x.oAuthID != oAuthID) }

/-- `SqlStore.GetCredentials` (`sqlstore.go`): `QueryRow` of
`SELECT ... FROM installation WHERE groupId = $1`; `sql.ErrNoRows` is mapped
to `(nil, nil)`, modelled as `.ok none`. `QueryRow` yields the first matching
row. -/
def getCredentials (db : SqlDB) (groupID : Nat) : Except String (Option InstallRecord) :=
  match db.connErr with
  | some e => .error e
  | none => .ok (db.rows.find? (fun x => x.groupID == groupID))

/-- `SqlStore.GetGroupID` (`sqlstore.go`): `QueryRow` of
`SELECT groupid from installation where roomid = $1`; `sql.ErrNoRows` is
mapped to `(0, nil)` — the not-found case is swallowed into the zero value. -/
def getGroupID (db : SqlDB) (roomID : Nat) : Except String Nat :=
  match db.connErr with
  | some e => .error e
  | none =>
    match db.rows.find? (fun x => x.roomID == roomID) with
    | none => .ok 0
    | some row => .ok row.groupID

/-! ## Dynamic Go values carried in JWT claims -/

/-- A Go `interface\x7b\x7d` value as produced by JSON decoding of JWT claims.
`null` doubles as the nil interface obtained when indexing a map at a missing
key. Float payloads are rationals standing for the IEEE values the claims
paths only convert or match on. -/
inductive GoVal where
  | null
  | str (s : String)
  | f64 (q : ℚ)
  | f32 (q : ℚ)
  | int (n : Int)
  | boolean (b : Bool)
  | obj (entries : List (String × GoVal))
  | arr (elems : List GoVal)

/-- Go map indexing `dict[key]`: the nil interface (`GoVal.null`) when the key
is absent. -/
def lookupGo (dict : List (String × GoVal)) (key : String) : GoVal :=
  match dict.find? (fun kv => kv.1 == key) with
  | none => .null
  | some kv => kv.2

/-- Outcome of a Go computation that can return a value, return an error, or
panic at runtime. -/
inductive GoResult (α : Type) where
  | ok (v : α)
  | err (msg : String)
  | panic (msg : String)
  deriving Repr, DecidableEq

/-! ## Signed parameters (`store.go`) -/

/-- `SignedParams` from `store.go`; `RoomID` is a Go `uint32`. -/
structure SignedParams where
  roomID : Nat
  userTimezone : String
  deriving Repr, DecidableEq

/-- Go's `uint32(v)` conversion applied to a `float64` value: truncation
toward zero, reduced modulo `2^32` for the in-range values exercised here. -/
def goFloatToUint32 (q : ℚ) : Nat := (q.num / (q.den : Int)).toNat % 2 ^ 32

/-- `fmt.Errorf("Missing signed parameter \"%v\"", key)` in `extractType`. -/
def missingParamMsg (key : String) : String :=
  "Missing signed parameter \"" ++ key ++ "\""

/-- The `fmt.Errorf("Type mismatch for signed param %v ...", key, ...)`
message of `extractType`, keeping the field name it carries. -/
def typeMismatchMsg (key : String) : String :=
  "Type mismatch for signed param " ++ key

/-- Message of the Go runtime panic raised by the failed type assertion
`v.(float64)` when `v` holds a `float32`. -/
def float32AssertionMsg : String :=
  "interface conversion: interface is float32, not float64"

/-- The `case *string` arm of `extractType` (`store.go`): a missing (nil)
value is an error naming the field, a `string` value is copied out, and any
other dynamic type is a type-mismatch error naming the field. -/
def extractTypeStr (dict : List (String × GoVal)) (key : String) : GoResult String :=
  match lookupGo dict key with
  | .null => .err (missingParamMsg key)
  | .str v => .ok v
  | _ => .err (typeMismatchMsg key)

/-- The `case *uint32` arm of `extractType` (`store.go`): a missing (nil)
value is an error naming the field; `case float32, float64:` matches both
float types but then runs `*d = uint32(v.(float64))`, so a `float64` is
converted while a `float32` makes the type assertion panic; any other dynamic
type is a type-mismatch error naming the field. -/
def extractTypeU32 (dict : List (String × GoVal)) (key : String) : GoResult Nat :=
  match lookupGo dict key with
  | .null => .err (missingParamMsg key)
  | .f64 q => .ok (goFloatToUint32 q)
  | .f32 _ => .panic float32AssertionMsg
  | _ => .err (typeMismatchMsg key)

/-- Wrapper `fmt.Errorf("Error extracting room_id: %v", err)`. -/
def extractErrRoomID (e : String) : String := "Error extracting room_id: " ++ e

/-- Wrapper `fmt.Errorf("Error extracting user_tz: %v", err)`. -/
def extractErrUserTz (e : String) : String := "Error extracting user_tz: " ++ e

/-- Error for a `context` claim that is not a key-value map (the `default`
arm of the type switch in `NewSignedParams`, also taken when the claim is
absent). -/
def contextWrongTypeMsg : String := "context of wrong type"

/-- `NewSignedParams` (`store.go`): switch on the `context` claim; when it is
a `map[string]interface\x7b\x7d`, extract `room_id` into a `uint32` and
`user_tz` into a `string`, wrapping any extraction error with the field name;
otherwise fail. A panic inside `extractType` propagates. -/
def newSignedParams (claims : List (String × GoVal)) : GoResult SignedParams :=
  match lookupGo claims "context" with
  | .obj ctx =>
    match extractTypeU32 ctx "room_id" with
    | .err e => .err (extractErrRoomID e)
    | .panic m => .panic m
    | .ok rid =>
      match extractTypeStr ctx "user_tz" with
      | .err e => .err (extractErrUserTz e)
      | .panic m => .panic m
      | .ok tz => .ok { roomID := rid, userTimezone := tz }
  | _ => .err contextWrongTypeMsg

/-! ## JWT verification (`store.go` and the jwt-go dependency) -/

/-- JWT signing algorithms distinguished by jwt-go's method registry; the
`SigningMethodHMAC` family is exactly `HS256`, `HS384`, `HS512`. -/
inductive Alg where
  | hs256 | hs384 | hs512
  | rs256 | rs384 | rs512
  | es256 | es384 | es512
  | algNone
  deriving Repr, DecidableEq

/-- Whether jwt-go's method for this algorithm is a `*SigningMethodHMAC`. -/
def Alg.isHMAC : Alg → Bool
  | .hs256 | .hs384 | .hs512 => true
  | _ => false

/-- The `alg` header string, as interpolated into error messages. -/
def Alg.algHeader : Alg → String
  | .hs256 => "HS256"
  | .hs384 => "HS384"
  | .hs512 => "HS512"
  | .rs256 => "RS256"
  | .rs384 => "RS384"
  | .rs512 => "RS512"
  | .es256 => "ES256"
  | .es384 => "ES384"
  | .es512 => "ES512"
  | .algNone => "none"

/-- A decoded JWT as jwt-go hands it to the key function: its signing method
(`alg`), its claims map, and — standing for the compact form's signature
bytes — the predicate saying under which HMAC secrets its signature
verifies. -/
structure JwtToken where
  alg : Alg
  claims : List (String × GoVal)
  sigOK : String → Bool

/-- `fmt.Errorf("Unexpected signing method: %v", token.Header["alg"])`. -/
def unexpectedMethodMsg (a : Alg) : String :=
  "Unexpected signing method: " ++ a.algHeader

/-- Error for an `iss` claim that is missing or not a string (the `default`
arm of the type switch in the key function). -/
def issWrongTypeMsg : String := "iss header of wrong type"

/-- The key function closed over the `Integration` in `ParseSignedParams`
(`store.go`): reject any non-HMAC signing method before touching the store,
then look up the per-issuer secret with the `iss` claim via
`Store.GetOAuthSecret`. The store operation is abstract (`getOAuthSecret`) —
the repository declares it only in the `Store` interface. -/
def keyFunc (getOAuthSecret : String → Except String String) (token : JwtToken) :
    Except String String :=
  if !token.alg.isHMAC then .error (unexpectedMethodMsg token.alg)
  else
    match lookupGo token.claims "iss" with
    | .str oauthID => getOAuthSecret oauthID
    | _ => .error issWrongTypeMsg

/-- jwt-go's `jwt.Parse(tokenStr, keyFunc)`: decode the compact form
(abstract `decodeJwt`), call the key function — its error aborts parsing
before any signature check — then verify the signature with the returned
secret. -/
def jwtParse (decodeJwt : String → Except String JwtToken) (tokenStr : String)
    (kf : JwtToken → Except String String) : Except String JwtToken :=
  match decodeJwt tokenStr with
  | .error e => .error e
  | .ok token =>
    match kf token with
    | .error e => .error e
    | .ok secret =>
      if token.sigOK secret then .ok token else .error "signature is invalid"

/-- `parse` (`store.go`): `jwt.Parse` followed by `NewSignedParams`. -/
def parse (decodeJwt : String → Except String JwtToken)
    (kf : JwtToken → Except String String) (tokenStr : String) : GoResult SignedParams :=
  match jwtParse decodeJwt tokenStr kf with
  | .error e => .err e
  | .ok token => newSignedParams token.claims

/-- An inbound request as `ParseSignedParams` reads it: the result of
`req.Header.Get("Authorization")` and of `req.Form.Get("signed_request")`
(both `""` when absent). -/
structure Request where
  authorizationHeader : String
  signedRequestForm : String
  deriving Repr, DecidableEq

/-- Go's `strings.ToUpper` restricted to the code points relevant to the
`"JWT "` comparison (simple per-character upper-casing). -/
def goToUpper (s : String) : String := String.mk (s.data.map Char.toUpper)

/-- Go's `strings.HasPrefix`. -/
def goHasPrefix (s pre : String) : Bool := pre.data.isPrefixOf s.data

/-- Go's slice expression `s[n:]` (for the all-ASCII prefixes used here, byte
offsets and character offsets agree). -/
def goSliceFrom (s : String) (n : Nat) : String := String.mk (s.data.drop n)

/-- The `prefix := "JWT "` constant of `ParseSignedParams`. -/
def jwtHeaderScheme : String := "JWT "

/-- `jwt.ErrNoTokenInRequest`. -/
def errNoTokenInRequest : String := "no token present in request"

/-- `ParseSignedParams` (`store.go`): when the `Authorization` header is
non-empty and, upper-cased, starts with `"JWT "`, parse the header with the
scheme stripped (`ah[len(prefix):]`); otherwise, when the `signed_request`
form field is non-empty, parse that; otherwise fail with
`jwt.ErrNoTokenInRequest`. -/
def parseSignedParams (getOAuthSecret : String → Except String String)
    (decodeJwt : String → Except String JwtToken) (req : Request) : GoResult SignedParams :=
  if req.authorizationHeader != "" &&
      goHasPrefix (goToUpper req.authorizationHeader) jwtHeaderScheme then
    parse decodeJwt (keyFunc getOAuthSecret)
      (goSliceFrom req.authorizationHeader jwtHeaderScheme.length)
  else if req.signedRequestForm != "" then
    parse decodeJwt (keyFunc getOAuthSecret) req.signedRequestForm
  else
    .err errNoTokenInRequest

/-! ## Integration state and lifecycle handlers (`store.go`) -/

/-- The token cache `tokens map[string]string` of `Integration`, keyed by
`"groupid:roomid"`, as an association list. -/
def TokenMap : Type := List (String × String)

/-- Map lookup `token, exists := i.tokens[key]`. -/
def tokensGet (m : TokenMap) (key : String) : Option String :=
  (m.find? (fun kv => kv.1 == key)).map (fun kv => kv.2)

/-- Map update `i.tokens[key] = token`. -/
def tokensPut (m : TokenMap) (key token : String) : TokenMap :=
  m.filter (fun kv => kv.1 != key) ++ [(key, token)]

/-- `fmt.Sprintf("%v:%v", groupID, roomID)`. -/
def tenantKey (groupID roomID : Nat) : String :=
  toString groupID ++ ":" ++ toString roomID

/-- The `Store` operations `GetTokenForRoom` consumes, as the interface
declares them (`GetCredentials` takes the group and room identifiers; a
`.ok none` result is the `(nil, nil)` not-found convention). -/
structure StoreOps where
  getGroupID : Nat → Except String Nat
  getCredentials : Nat → Nat → Except String (Option InstallRecord)

/-- The outbound token exchange `client.GenerateToken(ClientCredentials\x7boauthId,
oauthSecret\x7d, scopes)`, a black-box RPC returning an access token string or
an error. -/
structure Exchanger where
  generateToken : String → String → Except String String

/-- Message of the Go runtime panic from dereferencing a nil
`*InstallRecord`. -/
def nilDerefMsg : String :=
  "runtime error: invalid memory address or nil pointer dereference"

/-- `Integration.getToken` (`store.go`): builds `ClientCredentials` from the
record's fields — reading `credentials.OAuthID` dereferences the pointer, so a
nil record panics — exchanges them for a token, and caches the access token
under `"groupID:roomID"`. Returns the token together with the updated
cache. -/
def getToken (ex : Exchanger) (tokens : TokenMap) (credentials : Option InstallRecord) :
    GoResult (String × TokenMap) :=
  match credentials with
  | none => .panic nilDerefMsg
  | some c =>
    match ex.generateToken c.oAuthID c.oAuthSecret with
    | .error e => .err e
    | .ok accessToken =>
      .ok (accessToken, tokensPut tokens (tenantKey c.groupID c.roomID) accessToken)

/-- `Integration.GetTokenForRoom` (`store.go`): resolve the group via
`Store.GetGroupID` — on error the source runs `return "", nil`, dropping the
error — then look up `"groupID:roomID"` in the cache; on a miss, load
credentials via `Store.GetCredentials` and fall into `getToken`. -/
def getTokenForRoom (store : StoreOps) (ex : Exchanger) (tokens : TokenMap)
    (roomID : Nat) : GoResult (String × TokenMap) :=
  match store.getGroupID roomID with
  | .error _ => .ok ("", tokens)
  | .ok groupID =>
    match tokensGet tokens (tenantKey groupID roomID) with
    | some token => .ok (token, tokens)
    | none =>
      match store.getCredentials groupID roomID with
      | .error e => .err e
      | .ok credentials => getToken ex tokens credentials

/-- The state of an `Integration` relevant to the lifecycle handlers: its
backing store and its token cache. -/
structure Integration where
  db : SqlDB
  tokens : TokenMap

/-- Status code and body written by a handler. -/
structure HttpResponse where
  status : Nat
  body : String
  deriving Repr, DecidableEq

/-- `Integration.handleRemoved` (`store.go`, `DELETE /installed/\x7boAuthId\x7d`
route): delete the credentials via the store; on failure answer 500, on
success answer 200 "OK" and fire the removal callbacks. The token cache is
not touched on either path. -/
def handleRemoved (i : Integration) (oAuthID : String) : Integration × HttpResponse :=
  match deleteCredentials i.db oAuthID with
  | .error _ => (i, ⟨500, "There was an error deleting these credentials"⟩)
  | .ok db' => ({ i with db := db' }, ⟨200, "OK"⟩)

/-! ## Claim theorems -/

/-- Claim C1: for every inbound signed request, if the presented JWT's signing
algorithm is not HMAC-based, the `parse` path of `ParseSignedParams` rejects
the token with an error — regardless of the per-issuer secret the store would
return and regardless of whether the signature would verify under it (the
token's `sigOK` predicate is arbitrary, in particular it may accept every
secret). -/
theorem parse_rejects_non_hmac (getOAuthSecret : String → Except String String)
    (decodeJwt : String → Except String JwtToken) (tokenStr : String) (token : JwtToken)
    (hdec : decodeJwt tokenStr = .ok token) (halg : token.alg.isHMAC = false) :
    parse decodeJwt (keyFunc getOAuthSecret) tokenStr = .err (unexpectedMethodMsg token.alg) := by
  simp [parse, jwtParse, keyFunc, hdec, halg]

/-- Witness for C1: an `RS256` token whose signature would verify under every
secret, against a store that knows the issuer's secret, is still rejected. -/
theorem parse_rejects_non_hmac_witness :
    Alg.isHMAC .rs256 = false ∧
    parse (fun _ => .ok ⟨.rs256, [("iss", .str "abc")], fun _ => true⟩)
      (keyFunc (fun _ => .ok "s3cr3t")) "h.c.s" = .err (unexpectedMethodMsg .rs256) :=
  ⟨rfl, parse_rejects_non_hmac (fun _ => .ok "s3cr3t")
    (fun _ => .ok ⟨.rs256, [("iss", .str "abc")], fun _ => true⟩) "h.c.s"
    ⟨.rs256, [("iss", .str "abc")], fun _ => true⟩ rfl rfl⟩

/-- Claim C2 (code bug): when `Store.GetGroupID` fails, `GetTokenForRoom` is
claimed to return a non-nil error, but the source runs `return "", nil`
(store.go line 218), dropping the error: at a store whose group lookup fails,
the result is the empty token with a nil error. -/
theorem getTokenForRoom_swallows_groupID_error :
    getTokenForRoom ⟨fun _ => .error "store failure", fun _ _ => .ok none⟩
      ⟨fun _ _ => .ok "tok1"⟩ [] 7 = .ok ("", []) := rfl

/-- Claim C10 (code bug): on a cache miss where `Store.GetCredentials`
reports not-found as `(nil, nil)`, `GetTokenForRoom` passes the nil record to
`getToken`, which dereferences it building `ClientCredentials` — a runtime
panic, not a value-or-error return. -/
theorem getTokenForRoom_nil_credentials_panics :
    getTokenForRoom ⟨fun _ => .ok 1, fun _ _ => .ok none⟩
      ⟨fun _ _ => .ok "tok1"⟩ [] 7 = .panic nilDerefMsg := rfl

/-- Counterexample to C3: a successful uninstall of OAuth client "abc"
(status 200, its row deleted) leaves the token cached under that client's
tenant key "1:2" in place, so a subsequent cache lookup still hits. -/
theorem handleRemoved_leaves_cached_token :
    handleRemoved ⟨⟨[⟨"https://cap", "abc", "s3cr3t", 1, 2⟩], none⟩, [("1:2", "tok1")]⟩ "abc"
      = (⟨⟨[], none⟩, [("1:2", "tok1")]⟩, ⟨200, "OK"⟩) ∧
    tokensGet [("1:2", "tok1")] (tenantKey 1 2) = some "tok1" := ⟨rfl, rfl⟩

/-- Claim C3 (amended): after an uninstall, successful or not, `handleRemoved`
leaves the Integration's token map unchanged — cached tokens for tenant keys
owned by the removed OAuth client are not invalidated. -/
theorem handleRemoved_tokens_unchanged (i : Integration) (oAuthID : String) :
    ((handleRemoved i oAuthID).1).tokens = i.tokens := by
  unfold handleRemoved
  cases h : deleteCredentials i.db oAuthID <;> rfl

/-- Counterexample to C4: saving a record succeeds on an empty store, but
saving the same record again hits the `oauthId` primary-key constraint and
fails rather than replacing. -/
theorem saveCredentials_reinstall_fails :
    (saveCredentials ⟨[], none⟩ ⟨"https://cap", "abc", "s3cr3t", 1, 2⟩).map SqlDB.rows
      = .ok [⟨"https://cap", "abc", "s3cr3t", 1, 2⟩] ∧
    saveCredentials ⟨[⟨"https://cap", "abc", "s3cr3t", 1, 2⟩], none⟩
        ⟨"https://cap", "abc", "s3cr3t", 1, 2⟩
      = .error pkViolationMsg := ⟨rfl, rfl⟩

/-- Claim C4 (amended): `SaveCredentials` is a plain `INSERT`; a second call
whose record carries an OAuth client identifier already present in the store
fails with the primary-key constraint-violation error — re-install is not
idempotent and does not replace. -/
theorem saveCredentials_duplicate_oauthID_errors (db : SqlDB) (r : InstallRecord)
    (hconn : db.connErr = none) (hdup : ∃ x ∈ db.rows, x.oAuthID = r.oAuthID) :
    saveCredentials db r = .error pkViolationMsg := by
  have hpk : pkViolation db.rows r = true := by
    obtain ⟨x, hx, he⟩ := hdup
    exact List.any_eq_true.mpr ⟨x, hx, by simp [he]⟩
  simp [saveCredentials, hconn, hpk]

/-- Witness for the amended C4: inserting a second record for OAuth client
"abc" fails with the primary-key violation. -/
theorem saveCredentials_duplicate_oauthID_errors_witness :
    (⟨[⟨"https://cap", "abc", "s3cr3t", 1, 2⟩], none⟩ : SqlDB).connErr = none ∧
    (∃ x ∈ (⟨[⟨"https://cap", "abc", "s3cr3t", 1, 2⟩], none⟩ : SqlDB).rows,
      x.oAuthID = (⟨"https://other", "abc", "s2", 3, 4⟩ : InstallRecord).oAuthID) ∧
    saveCredentials ⟨[⟨"https://cap", "abc", "s3cr3t", 1, 2⟩], none⟩
        ⟨"https://other", "abc", "s2", 3, 4⟩ = .error pkViolationMsg :=
  ⟨rfl, ⟨⟨"https://cap", "abc", "s3cr3t", 1, 2⟩, by simp, rfl⟩,
    saveCredentials_duplicate_oauthID_errors _ _ rfl
      ⟨⟨"https://cap", "abc", "s3cr3t", 1, 2⟩, by simp, rfl⟩⟩

/-- Counterexample to C5: a `context` map holding `room_id` as a `float32`
value makes claim extraction panic (the failed `v.(float64)` type assertion),
so extraction is not panic-free for every context value, and not every
numeric `room_id` is coerced. -/
theorem newSignedParams_float32_panics :
    newSignedParams [("context", .obj [("room_id", .f32 42), ("user_tz", .str "UTC")])]
      = .panic float32AssertionMsg := rfl

/-- Claim C5 (amended): for a verified token whose `context` claim is a
key-value map, extraction coerces `room_id` to `uint32` from a `float64`
value only — a `float32` value panics via the failed type assertion, and an
integer or string value yields a type-mismatch error naming `room_id` — takes
`user_tz` as a string, a missing or integer-typed `user_tz` yielding an error
naming `user_tz`, and reports every missing field by name. -/
theorem newSignedParams_extraction_cases (claims : List (String × GoVal))
    (ctx : List (String × GoVal)) (hctx : lookupGo claims "context" = .obj ctx) :
    (∀ (q : ℚ) (s : String), lookupGo ctx "room_id" = .f64 q →
      lookupGo ctx "user_tz" = .str s →
      newSignedParams claims = .ok ⟨goFloatToUint32 q, s⟩) ∧
    (lookupGo ctx "room_id" = .null →
      newSignedParams claims = .err (extractErrRoomID (missingParamMsg "room_id"))) ∧
    (∀ q : ℚ, lookupGo ctx "room_id" = .f32 q →
      newSignedParams claims = .panic float32AssertionMsg) ∧
    (∀ n : Int, lookupGo ctx "room_id" = .int n →
      newSignedParams claims = .err (extractErrRoomID (typeMismatchMsg "room_id"))) ∧
    (∀ v : String, lookupGo ctx "room_id" = .str v →
      newSignedParams claims = .err (extractErrRoomID (typeMismatchMsg "room_id"))) ∧
    (∀ q : ℚ, lookupGo ctx "room_id" = .f64 q → lookupGo ctx "user_tz" = .null →
      newSignedParams claims = .err (extractErrUserTz (missingParamMsg "user_tz"))) ∧
    (∀ (q : ℚ) (n : Int), lookupGo ctx "room_id" = .f64 q → lookupGo ctx "user_tz" = .int n →
      newSignedParams claims = .err (extractErrUserTz (typeMismatchMsg "user_tz"))) := by
  refine ⟨fun q s h1 h2 => ?_, fun h1 => ?_, fun q h1 => ?_, fun n h1 => ?_,
    fun v h1 => ?_, fun q h1 h2 => ?_, fun q n h1 h2 => ?_⟩ <;>
    simp [newSignedParams, extractTypeU32, extractTypeStr, hctx, h1]
  case _ => simp [h2]
  case _ => simp [h2]
  case _ => simp [h2]

/-- Witness for the amended C5: `context` carrying `room_id = 42.0` (float64)
and `user_tz = "UTC"` extracts to `SignedParams` with room 42 and timezone
"UTC". -/
theorem newSignedParams_extraction_cases_witness :
    lookupGo [("context", GoVal.obj [("room_id", GoVal.f64 42), ("user_tz", GoVal.str "UTC")])]
        "context" = .obj [("room_id", GoVal.f64 42), ("user_tz", GoVal.str "UTC")] ∧
    goFloatToUint32 42 = 42 ∧
    newSignedParams [("context", GoVal.obj [("room_id", GoVal.f64 42), ("user_tz", GoVal.str "UTC")])]
      = .ok ⟨goFloatToUint32 42, "UTC"⟩ :=
  ⟨rfl, by decide,
    (newSignedParams_extraction_cases
      [("context", GoVal.obj [("room_id", GoVal.f64 42), ("user_tz", GoVal.str "UTC")])]
      [("room_id", GoVal.f64 42), ("user_tz", GoVal.str "UTC")] rfl).1 42 "UTC" rfl rfl⟩

/-- Claim C6: `ParseSignedParams` takes the JWT from the `Authorization`
header when it is present with a case-insensitive `"JWT "` scheme — the
header then takes precedence over any form value — otherwise from the
`signed_request` form parameter when non-empty, and fails with
`jwt.ErrNoTokenInRequest` when neither source yields a token. -/
theorem parseSignedParams_source_selection (getOAuthSecret : String → Except String String)
    (decodeJwt : String → Except String JwtToken) (req : Request) :
    (req.authorizationHeader ≠ "" →
      goHasPrefix (goToUpper req.authorizationHeader) jwtHeaderScheme = true →
      parseSignedParams getOAuthSecret decodeJwt req
        = parse decodeJwt (keyFunc getOAuthSecret)
            (goSliceFrom req.authorizationHeader jwtHeaderScheme.length)) ∧
    ((req.authorizationHeader = "" ∨
        goHasPrefix (goToUpper req.authorizationHeader) jwtHeaderScheme = false) →
      req.signedRequestForm ≠ "" →
      parseSignedParams getOAuthSecret decodeJwt req
        = parse decodeJwt (keyFunc getOAuthSecret) req.signedRequestForm) ∧
    ((req.authorizationHeader = "" ∨
        goHasPrefix (goToUpper req.authorizationHeader) jwtHeaderScheme = false) →
      req.signedRequestForm = "" →
      parseSignedParams getOAuthSecret decodeJwt req = .err errNoTokenInRequest) := by
  refine ⟨fun h1 h2 => ?_, fun h1 h2 => ?_, fun h1 h2 => ?_⟩
  · rw [parseSignedParams, if_pos]
    exact Bool.and_eq_true _ _ ▸ ⟨bne_iff_ne.mpr h1, h2⟩
  · have hc : (req.authorizationHeader != "" &&
        goHasPrefix (goToUpper req.authorizationHeader) jwtHeaderScheme) = false := by
      cases h1 with
      | inl h => simp [h]
      | inr h => simp [h]
    rw [parseSignedParams, if_neg (by simp [hc]), if_pos (bne_iff_ne.mpr h2)]
  · have hc : (req.authorizationHeader != "" &&
        goHasPrefix (goToUpper req.authorizationHeader) jwtHeaderScheme) = false := by
      cases h1 with
      | inl h => simp [h]
      | inr h => simp [h]
    rw [parseSignedParams, if_neg (by simp [hc]), if_neg (by simp [h2])]

/-- Witness for C6: a lower-case `jwt abc` header wins over a form value and
is parsed with the scheme stripped; a `Bearer` header falls back to the form
value; an empty request fails with the no-token error. -/
theorem parseSignedParams_source_selection_witness :
    parseSignedParams (fun _ => .error "no store") (fun _ => .error "undecoded")
        ⟨"jwt abc", "formtok"⟩
      = parse (fun _ => .error "undecoded") (keyFunc (fun _ => .error "no store")) "abc" ∧
    parseSignedParams (fun _ => .error "no store") (fun _ => .error "undecoded")
        ⟨"Bearer y", "formtok"⟩
      = parse (fun _ => .error "undecoded") (keyFunc (fun _ => .error "no store")) "formtok" ∧
    parseSignedParams (fun _ => .error "no store") (fun _ => .error "undecoded") ⟨"", ""⟩
      = .err errNoTokenInRequest :=
  ⟨(parseSignedParams_source_selection (fun _ => .error "no store")
      (fun _ => .error "undecoded") ⟨"jwt abc", "formtok"⟩).1 (by decide) rfl,
   (parseSignedParams_source_selection (fun _ => .error "no store")
      (fun _ => .error "undecoded") ⟨"Bearer y", "formtok"⟩).2.1 (Or.inr rfl) (by decide),
   (parseSignedParams_source_selection (fun _ => .error "no store")
      (fun _ => .error "undecoded") ⟨"", ""⟩).2.2 (Or.inl rfl) rfl⟩

/-- Claim C7: for every valid `InstallRecord`, `SaveCredentials` followed by
`GetCredentials` with the record's group key returns the record saved, all
five fields unchanged (stated over any prior store contents holding no row
for that group, which is what makes the group key "matching"). -/
theorem save_get_roundTrip (db : SqlDB) (r : InstallRecord) (db' : SqlDB)
    (hsave : saveCredentials db r = .ok db')
    (hfresh : ∀ x ∈ db.rows, x.groupID ≠ r.groupID) :
    getCredentials db' r.groupID = .ok (some r) := by
  obtain ⟨rows, connErr⟩ := db
  simp only [SqlDB.rows] at hfresh
  cases connErr with
  | some e => exact absurd hsave (by simp [saveCredentials])
  | none =>
    simp only [saveCredentials] at hsave
    split at hsave
    · exact absurd hsave (by simp)
    · split at hsave
      · exact absurd hsave (by simp)
      · split at hsave
        · exact absurd hsave (by simp)
        · injection hsave with h
          subst h
          simp only [getCredentials]
          rw [List.find?_append]
          rw [List.find?_eq_none.mpr (fun x hx => by simp [hfresh x hx])]
          simp [List.find?]

/-- Witness for C7: saving a concrete record into the empty store and reading
group 1 back returns the identical record. -/
theorem save_get_roundTrip_witness :
    saveCredentials ⟨[], none⟩ ⟨"https://cap", "abc", "s3cr3t", 1, 2⟩
      = .ok ⟨[⟨"https://cap", "abc", "s3cr3t", 1, 2⟩], none⟩ ∧
    (∀ x ∈ (⟨[], none⟩ : SqlDB).rows, x.groupID ≠ 1) ∧
    getCredentials ⟨[⟨"https://cap", "abc", "s3cr3t", 1, 2⟩], none⟩ 1
      = .ok (some ⟨"https://cap", "abc", "s3cr3t", 1, 2⟩) :=
  ⟨rfl, fun x hx => absurd hx (List.not_mem_nil x),
   save_get_roundTrip ⟨[], none⟩ ⟨"https://cap", "abc", "s3cr3t", 1, 2⟩
     ⟨[⟨"https://cap", "abc", "s3cr3t", 1, 2⟩], none⟩ rfl
     (fun x hx => absurd hx (List.not_mem_nil x))⟩

/-- Claim C8: `DeleteCredentials` is idempotent — absent a connectivity
failure it always succeeds; when no row matches the identifier it returns the
store unchanged; and deleting again after a delete returns the already
deleted state unchanged. -/
theorem deleteCredentials_idempotent (db : SqlDB) (oAuthID : String)
    (hconn : db.connErr = none) :
    (∃ db', deleteCredentials db oAuthID = .ok db') ∧
    ((∀ x ∈ db.rows, x.oAuthID ≠ oAuthID) → deleteCredentials db oAuthID = .ok db) ∧
    (∀ db', deleteCredentials db oAuthID = .ok db' →
      deleteCredentials db' oAuthID = .ok db') := by
  obtain ⟨rows, connErr⟩ := db
  simp only [SqlDB.connErr] at hconn
  subst hconn
  refine ⟨⟨_, rfl⟩, ?_, ?_⟩
  · intro hnone
    have hself : rows.filter (fun x => x.oAuthID != oAuthID) = rows :=
      List.filter_eq_self.mpr (fun x hx => bne_iff_ne.mpr (hnone x hx))
    simp only [deleteCredentials, hself]
  · intro db' h
    simp only [deleteCredentials] at h
    injection h with h
    subst h
    have hidem : (rows.filter (fun x => x.oAuthID != oAuthID)).filter
        (fun x => x.oAuthID != oAuthID) = rows.filter (fun x => x.oAuthID != oAuthID) :=
      List.filter_eq_self.mpr (fun x hx => (List.mem_filter.mp hx).2)
    simp only [deleteCredentials, hidem]

/-- Witness for C8: deleting the unknown identifier "other" from a one-row
store succeeds and returns the store unchanged. -/
theorem deleteCredentials_idempotent_witness :
    (⟨[⟨"https://cap", "abc", "s3cr3t", 1, 2⟩], none⟩ : SqlDB).connErr = none ∧
    (∀ x ∈ (⟨[⟨"https://cap", "abc", "s3cr3t", 1, 2⟩], none⟩ : SqlDB).rows,
      x.oAuthID ≠ "other") ∧
    deleteCredentials ⟨[⟨"https://cap", "abc", "s3cr3t", 1, 2⟩], none⟩ "other"
      = .ok ⟨[⟨"https://cap", "abc", "s3cr3t", 1, 2⟩], none⟩ :=
  ⟨rfl, by decide,
   (deleteCredentials_idempotent ⟨[⟨"https://cap", "abc", "s3cr3t", 1, 2⟩], none⟩
     "other" rfl).2.1 (by decide)⟩

/-- Claim C9: `GetGroupID` swallows not-found — with a healthy connection and
no installation row for the room it returns group 0 with no error — and a
non-nil error is returned only when the underlying store failed with exactly
that error. -/
theorem getGroupID_swallows_not_found (db : SqlDB) (roomID : Nat) :
    (db.connErr = none → (∀ x ∈ db.rows, x.roomID ≠ roomID) →
      getGroupID db roomID = .ok 0) ∧
    (∀ e, getGroupID db roomID = .error e → db.connErr = some e) := by
  obtain ⟨rows, connErr⟩ := db
  constructor
  · intro hconn hnone
    simp only [SqlDB.connErr] at hconn
    subst hconn
    simp only [getGroupID]
    rw [List.find?_eq_none.mpr (fun x hx => by simp [hnone x hx])]
  · intro e he
    cases connErr with
    | some e' =>
      simp only [getGroupID] at he
      injection he with h
      exact congrArg some h
    | none =>
      simp only [getGroupID] at he
      cases hf : rows.find? (fun x => x.roomID == roomID) with
      | none => rw [hf] at he; exact absurd he (by simp)
      | some row => rw [hf] at he; exact absurd he (by simp)

/-- Witness for C9: looking up room 7 in a store that only has room 2 returns
group 0 and no error. -/
theorem getGroupID_swallows_not_found_witness :
    ((⟨[⟨"https://cap", "abc", "s3cr3t", 1, 2⟩], none⟩ : SqlDB).connErr = none) ∧
    (∀ x ∈ (⟨[⟨"https://cap", "abc", "s3cr3t", 1, 2⟩], none⟩ : SqlDB).rows, x.roomID ≠ 7) ∧
    getGroupID ⟨[⟨"https://cap", "abc", "s3cr3t", 1, 2⟩], none⟩ 7 = .ok 0 :=
  ⟨rfl, by decide,
   (getGroupID_swallows_not_found ⟨[⟨"https://cap", "abc", "s3cr3t", 1, 2⟩], none⟩ 7).1
     rfl (by decide)⟩

end Hipchat
